import Mathlib

/-
Verification of the modbus-sync-worksites bridge.

The definitions below are a shallow embedding of the two source files:
  - api-client.js            (the APIClient class: login, apiCall, worksite mutators)
  - modbus-sync-worksites.js (config grouping, debouncer, Modbus group engine, sync loop)

External effects (TCP connects, Modbus reads, HTTP fetches, JSON.parse, MD5)
are passed in as explicit oracle values or function parameters; everything the
repository itself computes is translated directly from the JavaScript.

Note on api-client.js: the class body defines the method apiCall twice
(lines 177-228 and lines 230-272).  JavaScript class semantics keep the later
definition, so the embedding of apiCall below follows lines 230-272; the
shadowed earlier revision is embedded separately where a claim refers to it.
-/

namespace ModbusSync

/-- Logical worksite states, the EMPTY and FILLED constants of the source. -/
inductive WsState where
  | EMPTY
  | FILLED
deriving DecidableEq

/-- One entry of the SITES configuration list. -/
structure Site where
  siteId : String
  ip : String
  port : Nat
  slaveId : Nat
  offset : Nat
  default : WsState
deriving DecidableEq

/-- FILL_DEBOUNCE_MS constant of the source (2000 ms). -/
def FILL_DEBOUNCE_MS : Int := 2000

/-- defaultToBool of the source: EMPTY maps to false, FILLED to true. -/
def defaultToBool (d : WsState) : Bool :=
  match d with
  | WsState.FILLED => true
  | WsState.EMPTY => false

/-- Per-site debounce record, the value stored in the debounceStates map. -/
structure DebounceState where
  lastOppositeStartTs : Option Int
  effectiveVal : Bool
deriving DecidableEq

/-- updateDebouncedState of the source.  The argument st0 is the entry the
map held for the site before the call (none when absent, in which case the
source creates a fresh record with a null timestamp and the default value).
Returns the record stored back into the map; the source returns its
effectiveVal field. -/
def updateDebouncedState (site : Site) (st0 : Option DebounceState)
    (rawVal : Bool) (now : Int) : DebounceState :=
  let defaultVal := defaultToBool site.default
  let st := st0.getD ⟨none, defaultVal⟩
  if rawVal = defaultVal then
    ⟨none, defaultVal⟩
  else
    match st.lastOppositeStartTs with
    | none => ⟨some now, defaultVal⟩
    | some ts =>
      if now - ts ≥ FILL_DEBOUNCE_MS then ⟨some ts, !defaultVal⟩ else st

/-- Running the debouncer of one site over a list of (rawVal, now) samples,
starting from an absent map entry, exactly as repeated calls of
updateDebouncedState do. -/
def runDebounce (site : Site) (samples : List (Bool × Int)) :
    Option DebounceState :=
  samples.foldl (fun acc p => some (updateDebouncedState site acc p.1 p.2)) none

/-- Invariant of every record updateDebouncedState ever stores: a cleared
opposite-since timestamp implies the effective value is the default. -/
def DebounceInv (site : Site) (st : DebounceState) : Prop :=
  st.lastOppositeStartTs = none → st.effectiveVal = defaultToBool site.default

theorem updateDebouncedState_inv (site : Site) (st0 : Option DebounceState)
    (rawVal : Bool) (now : Int) :
    DebounceInv site (updateDebouncedState site st0 rawVal now) := by
  unfold DebounceInv updateDebouncedState
  rcases st0 with _ | st
  · by_cases h : rawVal = defaultToBool site.default <;> simp [h]
  · by_cases h : rawVal = defaultToBool site.default
    · simp [h]
    · simp only [h, if_false, Option.getD_some]
      rcases hts : st.lastOppositeStartTs with _ | ts
      · simp
      · by_cases hd : now - ts ≥ FILL_DEBOUNCE_MS <;> simp [hd, hts]

theorem updateDebouncedState_keeps_opposite (site : Site) (st : DebounceState)
    (rawVal : Bool) (now : Int)
    (hinv : DebounceInv site st)
    (heff : st.effectiveVal = !(defaultToBool site.default))
    (hraw : rawVal ≠ defaultToBool site.default) :
    (updateDebouncedState site (some st) rawVal now).effectiveVal
      = !(defaultToBool site.default) := by
  unfold updateDebouncedState
  simp only [hraw, if_false, Option.getD_some]
  rcases hts : st.lastOppositeStartTs with _ | ts
  · exfalso
    have := hinv hts
    rw [heff] at this
    cases defaultToBool site.default <;> simp_all
  · by_cases hd : now - ts ≥ FILL_DEBOUNCE_MS
    · simp [hd]
    · simp [hd, heff]

theorem foldlDebounce_inv (site : Site) (samples : List (Bool × Int)) :
    ∀ (acc : Option DebounceState),
      (∀ st, acc = some st → DebounceInv site st) →
      ∀ st,
        samples.foldl
          (fun a p => some (updateDebouncedState site a p.1 p.2)) acc = some st →
        DebounceInv site st := by
  induction samples with
  | nil =>
    intro acc hacc st h
    exact hacc st h
  | cons p rest ih =>
    intro acc hacc st h
    simp only [List.foldl_cons] at h
    refine ih (some (updateDebouncedState site acc p.1 p.2)) ?_ st h
    intro st' hst'
    rw [Option.some.injEq] at hst'
    rw [← hst']
    exact updateDebouncedState_inv site acc p.1 p.2

theorem runDebounce_inv (site : Site) (samples : List (Bool × Int))
    (st : DebounceState) (h : runDebounce site samples = some st) :
    DebounceInv site st := by
  unfold runDebounce at h
  exact foldlDebounce_inv site samples none (by intro st' h'; cases h') st h

/-- The PICK-01 entry of the SITES configuration list. -/
def pickSite : Site :=
  ⟨"PICK-01", "10.6.44.70", 502, 255, 9, WsState.EMPTY⟩

/-- The SITES configuration list (commented-out entries excluded). -/
def SITES : List Site := [pickSite]

/-- C1: updateDebouncedState implements default-biased hysteresis.  For every
site, stored state, raw sample and timestamp: agreement with the default
clears the opposite-since timestamp and yields the default; the first
disagreeing sample arms the timestamp at now and still yields the default; a
disagreeing sample with the timestamp armed yields the opposite of the
default exactly when now minus the timestamp reaches FILL_DEBOUNCE_MS, in
particular a sample exactly at the armed time plus FILL_DEBOUNCE_MS is
accepted; otherwise the previously stored effective value is returned
unchanged, in particular any strictly earlier sample is not accepted. -/
theorem update_debounced_hysteresis (site : Site) (st0 : Option DebounceState)
    (rawVal : Bool) (now : Int) :
    (rawVal = defaultToBool site.default →
      (updateDebouncedState site st0 rawVal now).lastOppositeStartTs = none ∧
      (updateDebouncedState site st0 rawVal now).effectiveVal
        = defaultToBool site.default) ∧
    (rawVal ≠ defaultToBool site.default →
      (st0.getD ⟨none, defaultToBool site.default⟩).lastOppositeStartTs = none →
      (updateDebouncedState site st0 rawVal now).lastOppositeStartTs = some now ∧
      (updateDebouncedState site st0 rawVal now).effectiveVal
        = defaultToBool site.default) ∧
    (∀ st ts, rawVal ≠ defaultToBool site.default → st0 = some st →
      st.lastOppositeStartTs = some ts → now - ts ≥ FILL_DEBOUNCE_MS →
      (updateDebouncedState site st0 rawVal now).effectiveVal
        = !(defaultToBool site.default)) ∧
    (∀ st ts, rawVal ≠ defaultToBool site.default → st0 = some st →
      st.lastOppositeStartTs = some ts → now - ts < FILL_DEBOUNCE_MS →
      (updateDebouncedState site st0 rawVal now).effectiveVal
        = st.effectiveVal) ∧
    (∀ st ts, rawVal ≠ defaultToBool site.default → st0 = some st →
      st.lastOppositeStartTs = some ts → now = ts + FILL_DEBOUNCE_MS →
      (updateDebouncedState site st0 rawVal now).effectiveVal
        = !(defaultToBool site.default)) ∧
    (∀ st ts, rawVal ≠ defaultToBool site.default → st0 = some st →
      st.lastOppositeStartTs = some ts → now < ts + FILL_DEBOUNCE_MS →
      (updateDebouncedState site st0 rawVal now).effectiveVal
        = st.effectiveVal) := by
  refine ⟨?_, ?_, ?_, ?_, ?_, ?_⟩
  · intro h
    simp [updateDebouncedState, h]
  · intro h hnone
    simp [updateDebouncedState, h, hnone]
  · intro st ts h hst hts hd
    subst hst
    simp [updateDebouncedState, h, hts, hd]
  · intro st ts h hst hts hd
    subst hst
    simp [updateDebouncedState, h, hts, not_le.mpr hd]
  · intro st ts h hst hts hd
    subst hst
    have hge : now - ts ≥ FILL_DEBOUNCE_MS := by omega
    simp [updateDebouncedState, h, hts, hge]
  · intro st ts h hst hts hd
    subst hst
    have hlt : now - ts < FILL_DEBOUNCE_MS := by omega
    simp [updateDebouncedState, h, hts, not_le.mpr hlt]

/-- Witness for C1: for PICK-01 (default EMPTY), with the opposite-since
timestamp armed at 0 and effective value still false, a raw true sample at
exactly 2000 ms is accepted while one at 1999 ms is not. -/
theorem update_debounced_hysteresis_witness :
    (updateDebouncedState pickSite (some ⟨some 0, false⟩) true 2000).effectiveVal
      = true ∧
    (updateDebouncedState pickSite (some ⟨some 0, false⟩) true 1999).effectiveVal
      = false := by
  constructor
  · have h := (update_debounced_hysteresis pickSite (some ⟨some 0, false⟩)
      true 2000).2.2.2.2.1 ⟨some 0, false⟩ 0 (by decide) rfl rfl (by decide)
    simpa using h
  · have h := (update_debounced_hysteresis pickSite (some ⟨some 0, false⟩)
      true 1999).2.2.2.2.2 ⟨some 0, false⟩ 0 (by decide) rfl rfl (by decide)
    simpa using h

theorem foldlDebounce_keeps_opposite (site : Site) (post : List (Bool × Int)) :
    ∀ st : DebounceState, DebounceInv site st →
      st.effectiveVal = !(defaultToBool site.default) →
      (∀ p ∈ post, p.1 ≠ defaultToBool site.default) →
      ∃ st',
        post.foldl (fun a p => some (updateDebouncedState site a p.1 p.2))
          (some st) = some st' ∧
        st'.effectiveVal = !(defaultToBool site.default) := by
  induction post with
  | nil =>
    intro st _ heff _
    exact ⟨st, rfl, heff⟩
  | cons p rest ih =>
    intro st hinv heff hpost
    simp only [List.foldl_cons]
    have hp : p.1 ≠ defaultToBool site.default :=
      hpost p (List.mem_cons_self p rest)
    have hkeep := updateDebouncedState_keeps_opposite site st p.1 p.2 hinv heff hp
    exact ih (updateDebouncedState site (some st) p.1 p.2)
      (updateDebouncedState_inv site (some st) p.1 p.2) hkeep
      (fun q hq => hpost q (List.mem_cons_of_mem p hq))

/-- C10: once the stored effective value of a site has switched to the
opposite of the default, every further sequence of updates whose raw samples
all disagree with the default keeps the effective value at the opposite
state, whatever timestamps those updates are given. -/
theorem debounce_latched_opposite (site : Site) (pre post : List (Bool × Int))
    (st : DebounceState)
    (hpre : runDebounce site pre = some st)
    (heff : st.effectiveVal = !(defaultToBool site.default))
    (hpost : ∀ p ∈ post, p.1 ≠ defaultToBool site.default) :
    ∃ st', runDebounce site (pre ++ post) = some st' ∧
      st'.effectiveVal = !(defaultToBool site.default) := by
  have hinv : DebounceInv site st := runDebounce_inv site pre st hpre
  unfold runDebounce at hpre ⊢
  rw [List.foldl_append, hpre]
  exact foldlDebounce_keeps_opposite site post st hinv heff hpost

/-- Witness for C10: PICK-01 switches to FILLED after raw true samples at 0
and 2000 ms, and further raw true samples at 1 ms and 9999 ms keep it FILLED. -/
theorem debounce_latched_opposite_witness :
    ∃ st', runDebounce pickSite
        ([(true, 0), (true, 2000)] ++ [(true, 1), (true, 9999)]) = some st' ∧
      st'.effectiveVal = !(defaultToBool pickSite.default) := by
  refine debounce_latched_opposite pickSite [(true, 0), (true, 2000)]
    [(true, 1), (true, 9999)] ⟨some 0, true⟩ (by decide) (by decide) ?_
  intro p hp
  fin_cases hp <;> decide

/-- A group as produced by groupSitesByConnection: key, connection triple,
member sites, minOffset and length. -/
structure Group where
  key : String
  ip : String
  port : Nat
  slaveId : Nat
  sites : List Site
  minOffset : Nat
  length : Nat
deriving DecidableEq

/-- The accumulator entry groupSitesByConnection keeps in its Map while it
still tracks maxOffset. -/
structure GroupAcc where
  key : String
  ip : String
  port : Nat
  slaveId : Nat
  sites : List Site
  minOffset : Nat
  maxOffset : Nat
deriving DecidableEq

/-- The grouping key string of the source, ip:port:slaveId. -/
def mkKey (s : Site) : String :=
  s.ip ++ ":" ++ toString s.port ++ ":" ++ toString s.slaveId

/-- One iteration of the grouping loop: find the group of the site by key
(insertion order preserved, as in a JavaScript Map), append the site and
update minOffset and maxOffset, or create a fresh group seeded with the
offset of the site. -/
def insertSite : List GroupAcc → Site → List GroupAcc
  | [], s =>
    [⟨mkKey s, s.ip, s.port, s.slaveId, [s], s.offset, s.offset⟩]
  | g :: gs, s =>
    if g.key = mkKey s then
      { g with
        sites := g.sites ++ [s],
        minOffset := if s.offset < g.minOffset then s.offset else g.minOffset,
        maxOffset := if s.offset > g.maxOffset then s.offset else g.maxOffset
      } :: gs
    else
      g :: insertSite gs s

/-- groupSitesByConnection of the source: fold the site list through the
keyed map, then project each accumulator entry to its final group shape with
length equal to maxOffset minus minOffset plus one. -/
def groupSitesByConnection (sites : List Site) : List Group :=
  (sites.foldl insertSite []).map fun g =>
    ⟨g.key, g.ip, g.port, g.slaveId, g.sites, g.minOffset,
      g.maxOffset - g.minOffset + 1⟩

/-- The GROUPS constant of the source. -/
def GROUPS : List Group := groupSitesByConnection SITES

/-- Starting address of the readDiscreteInputs request issued for a group. -/
def readRequestAddr (group : Group) : Nat := group.minOffset

/-- Quantity of the readDiscreteInputs request issued for a group: forced to
1 for a single-site group, otherwise the stored group length. -/
def readRequestLength (group : Group) : Nat :=
  if group.sites.length = 1 then 1 else group.length

/-- Minimum of the offsets of a site list, seeded with the head offset. -/
def sitesMinOffset : List Site → Nat
  | [] => 0
  | s :: rest => rest.foldl (fun m x => min m x.offset) s.offset

/-- Maximum of the offsets of a site list, seeded with the head offset. -/
def sitesMaxOffset : List Site → Nat
  | [] => 0
  | s :: rest => rest.foldl (fun m x => max m x.offset) s.offset

theorem if_lt_eq_min (a b : Nat) : (if b < a then b else a) = min a b := by
  rw [Nat.min_def]
  split_ifs <;> omega

theorem if_gt_eq_max (a b : Nat) : (if b > a then b else a) = max a b := by
  rw [Nat.max_def]
  split_ifs <;> omega

/-- Well-formedness of an accumulator entry: it has members and its stored
minOffset and maxOffset are the minimum and maximum of the member offsets. -/
def accWellFormed (g : GroupAcc) : Prop :=
  g.sites ≠ [] ∧ g.minOffset = sitesMinOffset g.sites ∧
    g.maxOffset = sitesMaxOffset g.sites

theorem sitesMinOffset_append (s0 : Site) (rest : List Site) (x : Site) :
    sitesMinOffset ((s0 :: rest) ++ [x])
      = min (sitesMinOffset (s0 :: rest)) x.offset := by
  simp [sitesMinOffset, List.foldl_append]

theorem sitesMaxOffset_append (s0 : Site) (rest : List Site) (x : Site) :
    sitesMaxOffset ((s0 :: rest) ++ [x])
      = max (sitesMaxOffset (s0 :: rest)) x.offset := by
  simp [sitesMaxOffset, List.foldl_append]

theorem insertSite_wf (s : Site) :
    ∀ acc : List GroupAcc, (∀ g ∈ acc, accWellFormed g) →
      ∀ g ∈ insertSite acc s, accWellFormed g := by
  intro acc
  induction acc with
  | nil =>
    intro _ g hg
    simp only [insertSite, List.mem_singleton] at hg
    subst hg
    exact ⟨by simp, by simp [sitesMinOffset], by simp [sitesMaxOffset]⟩
  | cons g0 gs ih =>
    intro hacc g hg
    simp only [insertSite] at hg
    by_cases hkey : g0.key = mkKey s
    · rw [if_pos hkey] at hg
      rcases List.mem_cons.mp hg with hg | hg
      · subst hg
        obtain ⟨hne, hmin, hmax⟩ := hacc g0 (List.mem_cons_self g0 gs)
        rcases hsites : g0.sites with _ | ⟨s0, rest⟩
        · exact absurd hsites hne
        · refine ⟨by simp, ?_, ?_⟩
          · show (if s.offset < g0.minOffset then s.offset else g0.minOffset)
              = sitesMinOffset ((s0 :: rest) ++ [s])
            rw [if_lt_eq_min, sitesMinOffset_append, ← hsites, hmin]
          · show (if s.offset > g0.maxOffset then s.offset else g0.maxOffset)
              = sitesMaxOffset ((s0 :: rest) ++ [s])
            rw [if_gt_eq_max, sitesMaxOffset_append, ← hsites, hmax]
      · exact hacc g (List.mem_cons_of_mem g0 hg)
    · rw [if_neg hkey] at hg
      rcases List.mem_cons.mp hg with hg | hg
      · subst hg
        exact hacc g (List.mem_cons_self g gs)
      · exact ih (fun g' hg' => hacc g' (List.mem_cons_of_mem g0 hg')) g hg

theorem foldl_insertSite_wf (sites : List Site) :
    ∀ acc : List GroupAcc, (∀ g ∈ acc, accWellFormed g) →
      ∀ g ∈ sites.foldl insertSite acc, accWellFormed g := by
  induction sites with
  | nil => intro acc hacc; exact hacc
  | cons s rest ih =>
    intro acc hacc
    simp only [List.foldl_cons]
    exact ih (insertSite acc s) (insertSite_wf s acc hacc)

/-- C9: for every group built by groupSitesByConnection, a single-site group
is read with quantity 1 whatever the offset of its site is, and a group with
more than one site is read with quantity equal to the maximum member offset
minus the minimum member offset plus one, starting at the minimum member
offset. -/
theorem read_request_geometry (sites : List Site) (g : Group)
    (hg : g ∈ groupSitesByConnection sites) :
    (g.sites.length = 1 → readRequestLength g = 1) ∧
    (1 < g.sites.length →
      readRequestLength g
        = sitesMaxOffset g.sites - sitesMinOffset g.sites + 1 ∧
      readRequestAddr g = sitesMinOffset g.sites) := by
  unfold groupSitesByConnection at hg
  rcases List.mem_map.mp hg with ⟨ga, hga, hmk⟩
  have hwf : accWellFormed ga :=
    foldl_insertSite_wf sites [] (by intro g' hg'; cases hg') ga hga
  obtain ⟨hne, hmin, hmax⟩ := hwf
  obtain ⟨k, gip, gport, gslave, gsites, gmin, gmax⟩ := ga
  subst hmk
  dsimp only at hne hmin hmax ⊢
  constructor
  · intro h1
    simp [readRequestLength, h1]
  · intro hgt
    have hgt' : 1 < gsites.length := hgt
    have hne1 : ¬ gsites.length = 1 := by omega
    subst hmin
    subst hmax
    simp [readRequestLength, readRequestAddr, hne1]

/-- Witness for C9: a concrete two-site group on one PLC with offsets 9 and
12 is read with quantity 4 starting at address 9, and the single-site group
of the SITES configuration is read with quantity 1. -/
theorem read_request_geometry_witness :
    readRequestLength
      ⟨"10.6.44.70:502:255", "10.6.44.70", 502, 255,
        [⟨"PICK-01", "10.6.44.70", 502, 255, 9, WsState.EMPTY⟩,
         ⟨"DROP-01", "10.6.44.70", 502, 255, 12, WsState.FILLED⟩], 9, 4⟩ = 4 ∧
    readRequestAddr
      ⟨"10.6.44.70:502:255", "10.6.44.70", 502, 255,
        [⟨"PICK-01", "10.6.44.70", 502, 255, 9, WsState.EMPTY⟩,
         ⟨"DROP-01", "10.6.44.70", 502, 255, 12, WsState.FILLED⟩], 9, 4⟩ = 9 := by
  have h := read_request_geometry
    [⟨"PICK-01", "10.6.44.70", 502, 255, 9, WsState.EMPTY⟩,
     ⟨"DROP-01", "10.6.44.70", 502, 255, 12, WsState.FILLED⟩]
    ⟨"10.6.44.70:502:255", "10.6.44.70", 502, 255,
      [⟨"PICK-01", "10.6.44.70", 502, 255, 9, WsState.EMPTY⟩,
       ⟨"DROP-01", "10.6.44.70", 502, 255, 12, WsState.FILLED⟩], 9, 4⟩
    (by decide)
  obtain ⟨hlen, haddr⟩ := h.2 (by decide)
  refine ⟨?_, ?_⟩
  · rw [hlen]; decide
  · rw [haddr]; decide

/-- RECONNECT_BACKOFF_MS constant of the source (5000 ms). -/
def RECONNECT_BACKOFF_MS : Int := 5000

/-- Per-group runtime connection state, the value stored in modbusStates.
The client object itself is external; only its presence matters here. -/
structure ModbusConnState where
  client : Bool
  lastAttemptMs : Int
deriving DecidableEq

/-- Tagged result of readInputsForGroup, exactly the shapes the source
returns: ok with the inputs array, backoff, or error with a message. -/
inductive ReadResult where
  | ok (inputs : List Bool)
  | backoff
  | error (message : String)
deriving DecidableEq

/-- Outcome of the external connectTCP attempt. -/
inductive ConnectOutcome where
  | connected
  | failed (msg : String)
deriving DecidableEq

/-- Outcome of the external readDiscreteInputs call: an exception carrying a
message, or a response whose data field either is a boolean array (some) or
is missing or not an array (none, the malformed case). -/
inductive ReadWire where
  | raises (msg : String)
  | responds (data : Option (List Bool))
deriving DecidableEq

/-- The external events of one readInputsForGroup call: the Date.now() value
at entry, the Date.now() value taken inside the catch handler of the read,
and the outcomes of the connect and read calls (ignored when not reached). -/
structure ReadEnv where
  now : Int
  nowAtCatch : Int
  connect : ConnectOutcome
  wire : ReadWire
deriving DecidableEq

/-- Observable outcome of one readInputsForGroup call: the connection state
stored back into modbusStates, the returned result, whether a TCP connect
was initiated, and the (address, quantity) pair of the issued
readDiscreteInputs request when the read phase was reached. -/
structure ReadReturn where
  state : ModbusConnState
  result : ReadResult
  connectAttempted : Bool
  request : Option (Nat × Nat)
deriving DecidableEq

/-- The read phase of readInputsForGroup (the second try block): issue the
request; on an exception close the client best-effort, clear it and stamp
lastAttemptMs with the catch-time clock; on a malformed response return an
error without touching the state; otherwise return ok with the data. -/
def finishRead (group : Group) (state : ModbusConnState) (env : ReadEnv)
    (connAtt : Bool) : ReadReturn :=
  let req := some (readRequestAddr group, readRequestLength group)
  match env.wire with
  | ReadWire.raises msg =>
    ⟨⟨false, env.nowAtCatch⟩,
      ReadResult.error ("readDiscreteInputs failed: " ++ msg), connAtt, req⟩
  | ReadWire.responds none =>
    ⟨state, ReadResult.error "invalid readDiscreteInputs response format",
      connAtt, req⟩
  | ReadWire.responds (some data) =>
    ⟨state, ReadResult.ok data, connAtt, req⟩

/-- readInputsForGroup of the source.  st0 is the modbusStates entry for the
group key before the call (none on first use, in which case a fresh state
with no client and lastAttemptMs zero is created).  If no client is present:
return backoff without any connect when a previous attempt is recorded less
than RECONNECT_BACKOFF_MS ago, otherwise stamp lastAttemptMs and attempt the
connect, returning a connect-failed error when it fails.  With a client
present proceed to the read phase. -/
def readInputsForGroup (group : Group) (st0 : Option ModbusConnState)
    (env : ReadEnv) : ReadReturn :=
  let state := st0.getD ⟨false, 0⟩
  if state.client then
    finishRead group state env false
  else
    if state.lastAttemptMs ≠ 0 ∧ env.now - state.lastAttemptMs < RECONNECT_BACKOFF_MS then
      ⟨state, ReadResult.backoff, false, none⟩
    else
      match env.connect with
      | ConnectOutcome.failed msg =>
        ⟨⟨false, env.now⟩, ReadResult.error ("connect failed: " ++ msg), true, none⟩
      | ConnectOutcome.connected =>
        finishRead group ⟨true, env.now⟩ env true

/-- The debounceStates map, observed through lookups by siteId. -/
def DebStore := String → Option DebounceState

/-- Map.set on debounceStates. -/
def debSet (d : DebStore) (id : String) (st : DebounceState) : DebStore :=
  fun k => if k = id then some st else d k

/-- Map.delete on debounceStates. -/
def debDelete (d : DebStore) (id : String) : DebStore :=
  fun k => if k = id then none else d k

/-- resetDebounceForSites of the source: delete the entry of every listed
site. -/
def resetDebounceForSites (d : DebStore) (sites : List Site) : DebStore :=
  sites.foldl (fun acc s => debDelete acc s.siteId) d

/-- updateDebouncedState acting on the map: read the entry of the site,
store the updated record back, and return the new effective value. -/
def updateDebouncedStateStore (d : DebStore) (site : Site) (rawVal : Bool)
    (now : Int) : DebStore × Bool :=
  let st := updateDebouncedState site (d site.siteId) rawVal now
  (debSet d site.siteId st, st.effectiveVal)

/-- Observable effects of processing one group in syncOnce: the resulting
debounceStates map, the RDS writes issued in order (siteId paired with the
filled boolean), and the console.error messages emitted by the loop body. -/
structure SyncEffects where
  debounce : DebStore
  writes : List (String × Bool)
  errorLogs : List String

/-- The per-site loop of the ok branch of syncOnce: compute the index of the
site in the inputs array, treat an out-of-range index as a missing value
(reset the site and write its default, logging an error), otherwise update
the debouncer with the raw bit at the per-site clock and write the effective
value.  The clock argument maps the per-tick sample counter to Date.now(). -/
def processSites (minOffset : Nat) (inputs : List Bool) (clock : Nat → Int) :
    List Site → DebStore → Nat → SyncEffects
  | [], deb, _ => ⟨deb, [], []⟩
  | s :: rest, deb, i =>
    let idx : Int := (s.offset : Int) - (minOffset : Int)
    let rawVal : Option Bool :=
      if 0 ≤ idx then inputs[idx.toNat]? else none
    match rawVal with
    | none =>
      let ctx := "Missing Modbus input value for site " ++ s.siteId
      let deb1 := debDelete deb s.siteId
      let tail := processSites minOffset inputs clock rest deb1 i
      ⟨tail.debounce, (s.siteId, defaultToBool s.default) :: tail.writes,
        ctx :: tail.errorLogs⟩
    | some b =>
      let out := updateDebouncedStateStore deb s b (clock i)
      let tail := processSites minOffset inputs clock rest out.1 (i + 1)
      ⟨tail.debounce, (s.siteId, out.2) :: tail.writes, tail.errorLogs⟩

/-- The per-group body of syncOnce: on backoff do nothing, on error log once,
reset the debounce state of every site of the group and write every default,
on ok run the per-site loop. -/
def processGroup (group : Group) (res : ReadResult) (deb : DebStore)
    (clock : Nat → Int) : SyncEffects :=
  match res with
  | ReadResult.backoff => ⟨deb, [], []⟩
  | ReadResult.error msg =>
    ⟨resetDebounceForSites deb group.sites,
      group.sites.map (fun s => (s.siteId, defaultToBool s.default)),
      ["Modbus Group " ++ group.key
        ++ ": communication error, using default states. Details: " ++ msg]⟩
  | ReadResult.ok inputs => processSites group.minOffset inputs clock group.sites deb 0

/-- One group step of a sync tick: the Modbus read followed by the loop body
acting on its result. -/
def syncGroupTick (group : Group) (st0 : Option ModbusConnState)
    (env : ReadEnv) (deb : DebStore) (clock : Nat → Int) :
    ModbusConnState × SyncEffects :=
  let r := readInputsForGroup group st0 env
  (r.state, processGroup group r.result deb clock)

theorem readInputsForGroup_backoff_shape (group : Group)
    (st0 : Option ModbusConnState) (env : ReadEnv)
    (h : (readInputsForGroup group st0 env).result = ReadResult.backoff) :
    readInputsForGroup group st0 env
      = ⟨st0.getD ⟨false, 0⟩, ReadResult.backoff, false, none⟩ := by
  unfold readInputsForGroup at h ⊢
  rcases hc : (st0.getD ⟨false, 0⟩).client with _ | _
  · simp only [hc, Bool.false_eq_true, if_false] at h ⊢
    by_cases hb : (st0.getD ⟨false, 0⟩).lastAttemptMs ≠ 0 ∧
        env.now - (st0.getD ⟨false, 0⟩).lastAttemptMs < RECONNECT_BACKOFF_MS
    · rw [if_pos hb]
    · rw [if_neg hb] at h
      rcases henv : env.connect with _ | msg
      · rw [henv] at h
        exfalso
        unfold finishRead at h
        rcases hw : env.wire with msg | data
        · simp [hw] at h
        · rcases data with _ | d <;> simp [hw] at h
      · rw [henv] at h
        simp at h
  · simp only [hc, if_true] at h
    exfalso
    unfold finishRead at h
    rcases hw : env.wire with msg | data
    · simp [hw] at h
    · rcases data with _ | d <;> simp [hw] at h

/-- C2: on a tick where the Modbus read returns backoff, nothing changes for
the group: the connection state is returned unchanged, no debounce entry is
touched, no RDS write is issued, no error is logged, and no connect or read
request is made. -/
theorem sync_backoff_frame (group : Group) (st0 : Option ModbusConnState)
    (env : ReadEnv) (deb : DebStore) (clock : Nat → Int)
    (h : (readInputsForGroup group st0 env).result = ReadResult.backoff) :
    syncGroupTick group st0 env deb clock = (st0.getD ⟨false, 0⟩, ⟨deb, [], []⟩) ∧
    (readInputsForGroup group st0 env).connectAttempted = false ∧
    (readInputsForGroup group st0 env).request = none := by
  have hshape := readInputsForGroup_backoff_shape group st0 env h
  refine ⟨?_, by rw [hshape], by rw [hshape]⟩
  unfold syncGroupTick
  rw [hshape]
  rfl

/-- Witness for C2: the PICK-01 group with no client, a connect attempt
recorded at 1000 ms and the tick clock at 2000 ms, stays untouched. -/
theorem sync_backoff_frame_witness :
    syncGroupTick
        ⟨"10.6.44.70:502:255", "10.6.44.70", 502, 255, [pickSite], 9, 1⟩
        (some ⟨false, 1000⟩) ⟨2000, 2000, ConnectOutcome.connected,
          ReadWire.responds (some [true])⟩ (fun _ => none) (fun _ => 0)
      = (⟨false, 1000⟩, ⟨fun _ => none, [], []⟩) := by
  have h := sync_backoff_frame
    ⟨"10.6.44.70:502:255", "10.6.44.70", 502, 255, [pickSite], 9, 1⟩
    (some ⟨false, 1000⟩)
    ⟨2000, 2000, ConnectOutcome.connected, ReadWire.responds (some [true])⟩
    (fun _ => none) (fun _ => 0) (by decide)
  exact h.1

/-- C4: with no client present and a connect attempt recorded less than
RECONNECT_BACKOFF_MS before the current call, readInputsForGroup issues no
TCP connect (and no read request): it returns backoff at once. -/
theorem backoff_no_connect (group : Group) (st : ModbusConnState)
    (env : ReadEnv)
    (hclient : st.client = false)
    (hrec : st.lastAttemptMs ≠ 0)
    (hwin : 0 ≤ env.now - st.lastAttemptMs)
    (hlt : env.now - st.lastAttemptMs < RECONNECT_BACKOFF_MS) :
    (readInputsForGroup group (some st) env).connectAttempted = false ∧
    (readInputsForGroup group (some st) env).request = none ∧
    (readInputsForGroup group (some st) env).result = ReadResult.backoff := by
  unfold readInputsForGroup
  simp only [Option.getD_some, hclient, Bool.false_eq_true, if_false]
  rw [if_pos ⟨hrec, hlt⟩]
  exact ⟨rfl, rfl, rfl⟩

/-- Witness for C4: last attempt at 1000 ms, call at 3000 ms, difference
2000 ms below the 5000 ms backoff: no connect is issued. -/
theorem backoff_no_connect_witness :
    (readInputsForGroup
        ⟨"10.6.44.70:502:255", "10.6.44.70", 502, 255, [pickSite], 9, 1⟩
        (some ⟨false, 1000⟩)
        ⟨3000, 3000, ConnectOutcome.connected,
          ReadWire.responds (some [true])⟩).connectAttempted = false := by
  exact (backoff_no_connect
    ⟨"10.6.44.70:502:255", "10.6.44.70", 502, 255, [pickSite], 9, 1⟩
    ⟨false, 1000⟩
    ⟨3000, 3000, ConnectOutcome.connected, ReadWire.responds (some [true])⟩
    rfl (by decide) (by decide) (by decide)).1

theorem resetDebounce_preserve_none (sites : List Site) :
    ∀ (d : DebStore) (id : String), d id = none →
      resetDebounceForSites d sites id = none := by
  induction sites with
  | nil => intro d id h; exact h
  | cons s rest ih =>
    intro d id h
    unfold resetDebounceForSites at ih ⊢
    rw [List.foldl_cons]
    refine ih (debDelete d s.siteId) id ?_
    unfold debDelete
    by_cases hk : id = s.siteId <;> simp [hk, h]

theorem resetDebounce_mem_none (sites : List Site) :
    ∀ (d : DebStore) (s : Site), s ∈ sites →
      resetDebounceForSites d sites s.siteId = none := by
  induction sites with
  | nil => intro d s h; cases h
  | cons s0 rest ih =>
    intro d s h
    unfold resetDebounceForSites at ih ⊢
    rw [List.foldl_cons]
    rcases List.mem_cons.mp h with h | h
    · subst h
      refine resetDebounce_preserve_none rest (debDelete d s.siteId) s.siteId ?_
      unfold debDelete
      simp
    · exact ih (debDelete d s0.siteId) s h

/-- Counterexample for C3 as stated: a malformed readDiscreteInputs response
(data missing or not an array) makes the read fail, yet the engine neither
closes the client nor stamps lastAttemptAt: the connection state is returned
exactly as it was, with the client still present. -/
theorem modbus_error_close_counterexample :
    (readInputsForGroup
        ⟨"10.6.44.70:502:255", "10.6.44.70", 502, 255, [pickSite], 9, 1⟩
        (some ⟨true, 7⟩)
        ⟨100, 200, ConnectOutcome.connected, ReadWire.responds none⟩).result
      = ReadResult.error "invalid readDiscreteInputs response format" ∧
    (readInputsForGroup
        ⟨"10.6.44.70:502:255", "10.6.44.70", 502, 255, [pickSite], 9, 1⟩
        (some ⟨true, 7⟩)
        ⟨100, 200, ConnectOutcome.connected, ReadWire.responds none⟩).state
      = ⟨true, 7⟩ := by
  decide

/-- C3 as amended: whenever the Modbus read returns an error, either the
failure was a connect failure or a read exception, in which case the client
is absent afterwards and lastAttemptAt is stamped with the entry clock or
the catch clock respectively, or the failure was the malformed-response
case, in which case the connection state is returned untouched with the
client still present.  In every error case the sync loop deletes the
debounce entry of every site of the group, publishes every site's configured
default to RDS in order, and logs exactly one error. -/
theorem modbus_error_fallback (group : Group) (st0 : Option ModbusConnState)
    (env : ReadEnv) (deb : DebStore) (clock : Nat → Int) (msg : String)
    (h : (readInputsForGroup group st0 env).result = ReadResult.error msg) :
    (((readInputsForGroup group st0 env).state.client = false ∧
        ((readInputsForGroup group st0 env).state.lastAttemptMs = env.now ∨
          (readInputsForGroup group st0 env).state.lastAttemptMs = env.nowAtCatch)) ∨
      (msg = "invalid readDiscreteInputs response format" ∧
        (readInputsForGroup group st0 env).state.client = true)) ∧
    (∀ s ∈ group.sites,
      (processGroup group (ReadResult.error msg) deb clock).debounce s.siteId
        = none) ∧
    (processGroup group (ReadResult.error msg) deb clock).writes
      = group.sites.map (fun s => (s.siteId, defaultToBool s.default)) ∧
    (processGroup group (ReadResult.error msg) deb clock).errorLogs.length = 1 := by
  refine ⟨?_, ?_, rfl, rfl⟩
  · unfold readInputsForGroup at h ⊢
    rcases hc : (st0.getD ⟨false, 0⟩).client with _ | _
    · simp only [hc, Bool.false_eq_true, if_false] at h ⊢
      by_cases hb : (st0.getD ⟨false, 0⟩).lastAttemptMs ≠ 0 ∧
          env.now - (st0.getD ⟨false, 0⟩).lastAttemptMs < RECONNECT_BACKOFF_MS
      · rw [if_pos hb] at h
        simp at h
      · rw [if_neg hb] at h ⊢
        rcases henv : env.connect with _ | cmsg
        · simp only [henv] at h
          rcases hw : env.wire with rmsg | data
          · left
            simp [finishRead, hw]
          · rcases data with _ | d
            · right
              refine ⟨?_, by simp [finishRead, hw]⟩
              simp [finishRead, hw] at h
              exact h.symm
            · exfalso
              simp [finishRead, hw] at h
        · left
          simp
    · simp only [hc, if_true] at h ⊢
      rcases hw : env.wire with rmsg | data
      · left
        simp [finishRead, hw]
      · rcases data with _ | d
        · right
          refine ⟨?_, by simp [finishRead, hw, hc]⟩
          simp [finishRead, hw] at h
          exact h.symm
        · exfalso
          simp [finishRead, hw] at h
  · intro s hs
    unfold processGroup
    exact resetDebounce_mem_none group.sites deb s hs

/-- Witness for C3 as amended: a connect failure at clock 100 leaves the
client absent with lastAttemptAt 100, and the sync loop deletes the PICK-01
debounce entry and writes its default EMPTY. -/
theorem modbus_error_fallback_witness :
    (readInputsForGroup
        ⟨"10.6.44.70:502:255", "10.6.44.70", 502, 255, [pickSite], 9, 1⟩
        (some ⟨false, 0⟩)
        ⟨100, 200, ConnectOutcome.failed "boom",
          ReadWire.responds none⟩).state = ⟨false, 100⟩ ∧
    (processGroup
        ⟨"10.6.44.70:502:255", "10.6.44.70", 502, 255, [pickSite], 9, 1⟩
        (ReadResult.error "connect failed: boom")
        (fun _ => some ⟨some 0, true⟩) (fun _ => 0)).debounce "PICK-01"
      = none ∧
    (processGroup
        ⟨"10.6.44.70:502:255", "10.6.44.70", 502, 255, [pickSite], 9, 1⟩
        (ReadResult.error "connect failed: boom")
        (fun _ => some ⟨some 0, true⟩) (fun _ => 0)).writes
      = [("PICK-01", false)] := by
  have h := modbus_error_fallback
    ⟨"10.6.44.70:502:255", "10.6.44.70", 502, 255, [pickSite], 9, 1⟩
    (some ⟨false, 0⟩)
    ⟨100, 200, ConnectOutcome.failed "boom", ReadWire.responds none⟩
    (fun _ => some ⟨some 0, true⟩) (fun _ => 0)
    "connect failed: boom" (by decide)
  refine ⟨by decide, ?_, ?_⟩
  · exact h.2.1 pickSite (by decide)
  · exact (h.2.2.1).trans (by decide)

/-- Constructor state of the APIClient: apiHost, username, password, the
session id (null when not logged in) and the configured language. -/
structure ClientState where
  apiHost : String
  username : String
  password : String
  sessionId : Option String
  language : String

/-- The request headers set by the live apiCall revision. -/
structure Headers where
  contentType : String
  cookie : String
  language : String
deriving DecidableEq

/-- An HTTP response as the client observes it: status and body text. -/
structure HttpResponse where
  status : Nat
  body : String
deriving DecidableEq

/-- response.ok of fetch: status in the range 200 to 299. -/
def respOk (status : Nat) : Bool :=
  decide (200 ≤ status) && decide (status < 300)

/-- Result of an apiCall: the value returned, or the thrown error message. -/
inductive CallResult where
  | success (body : String)
  | failure (msg : String)
deriving DecidableEq

/-- External events of one apiCall: the token obtained by the initial login
when one is needed (none when that login throws), the first fetch response,
the token obtained by the re-login after 401 or 403 (none when it throws),
and the second fetch response. -/
structure ApiEnv where
  loginInitial : Option String
  resp1 : HttpResponse
  loginRetry : Option String
  resp2 : HttpResponse
deriving DecidableEq

/-- Observable outcome of one apiCall: how many fetches were sent, whether a
re-login was triggered, the headers of the first and second fetch, the
returned or thrown result, and the session id afterwards. -/
structure ApiResult where
  fetchCount : Nat
  reloggedIn : Bool
  headers1 : Option Headers
  headers2 : Option Headers
  outcome : CallResult
  session : Option String
deriving DecidableEq

/-- The headers the live apiCall revision puts on every request: a JSON
content type, the JSESSIONID cookie, and a Language header hard-coded to
the string en (the source comment offers this.language as an alternative
but the code sends the constant). -/
def mkHeaders (tok : String) : Headers :=
  ⟨"application/json", "JSESSIONID=" ++ tok, "en"⟩

/-- Final handling of the response in the live apiCall revision: a non-ok
status throws an API error naming the status; an ok status returns
response.json(), which fails whenever the body text does not parse as JSON
(the jsonOk parameter stands for JSON.parse succeeding). -/
def apiFinish (jsonOk : String → Bool) (resp : HttpResponse) : CallResult :=
  if respOk resp.status then
    if jsonOk resp.body then CallResult.success resp.body
    else CallResult.failure "JSON decode error"
  else
    CallResult.failure ("Błąd wywołania API: " ++ toString resp.status)

/-- The body of the live apiCall revision once a session token t is in hand:
send the request; on status 401 or 403 re-login and resend exactly once with
the new token; then fail on a non-ok status or return the parsed body. -/
def apiCallWith (jsonOk : String → Bool) (t : String) (env : ApiEnv) :
    ApiResult :=
  let h1 := mkHeaders t
  if env.resp1.status = 401 ∨ env.resp1.status = 403 then
    match env.loginRetry with
    | none =>
      ⟨1, true, some h1, none, CallResult.failure "login failed", some t⟩
    | some t2 =>
      ⟨2, true, some h1, some (mkHeaders t2), apiFinish jsonOk env.resp2,
        some t2⟩
  else
    ⟨1, false, some h1, none, apiFinish jsonOk env.resp1, some t⟩

/-- apiCall of api-client.js, the later of the two method definitions in the
class (lines 230-272), which is the one JavaScript dispatches to: ensure a
session by logging in when sessionId is null, then run the request-and-retry
body.  The path argument is appended to apiHost for the fetch and does not
influence the observable outcome modelled here. -/
def apiCall (jsonOk : String → Bool) (c : ClientState) (path : String)
    (env : ApiEnv) : ApiResult :=
  match c.sessionId with
  | some t => apiCallWith jsonOk t env
  | none =>
    match env.loginInitial with
    | none => ⟨0, false, none, none, CallResult.failure "login failed", none⟩
    | some t => apiCallWith jsonOk t env

/-- The session token the call proceeds with: the stored one, or the one the
initial login obtains. -/
def ensureSession (c : ClientState) (env : ApiEnv) : Option String :=
  match c.sessionId with
  | some t => some t
  | none => env.loginInitial

/-- Value shapes of the shadowed earlier apiCall revision (lines 217-228 of
api-client.js): null on empty body, parsed JSON, or the raw text fallback. -/
inductive ApiValue where
  | nullValue
  | jsonValue (s : String)
  | textValue (s : String)
deriving DecidableEq

/-- Success-body handling of the shadowed earlier apiCall revision: an empty
text yields null, then JSON parsing is attempted with the raw text as the
fallback.  This revision is dead code because the later duplicate method
definition replaces it. -/
def apiSuccessBodyShadowed (jsonOk : String → Bool) (text : String) :
    ApiValue :=
  if text = "" then ApiValue.nullValue
  else if jsonOk text then ApiValue.jsonValue text
  else ApiValue.textValue text

theorem apiSuccessBodyShadowed_empty_null (jsonOk : String → Bool) :
    apiSuccessBodyShadowed jsonOk "" = ApiValue.nullValue := rfl

theorem apiCall_eq_with (jsonOk : String → Bool) (c : ClientState)
    (path : String) (env : ApiEnv) (t : String)
    (hsess : ensureSession c env = some t) :
    apiCall jsonOk c path env = apiCallWith jsonOk t env := by
  unfold ensureSession at hsess
  unfold apiCall
  rcases hcs : c.sessionId with _ | t0
  · rw [hcs] at hsess
    dsimp only at hsess
    rw [hsess]
  · rw [hcs] at hsess
    dsimp only at hsess
    obtain rfl := Option.some.inj hsess
    rfl

/-- C5: exactly the statuses 401 and 403 of the first response trigger a
re-login, followed by exactly one resend when the re-login yields a token;
any other first status, in particular 400, triggers no re-login and no
resend and a 400 makes the call throw the API error; and when the resent
request again returns a failing status the call throws instead of retrying
again, still with exactly two fetches and one re-login. -/
theorem api_relogin_policy (jsonOk : String → Bool) (c : ClientState)
    (path : String) (env : ApiEnv) (t : String)
    (hsess : ensureSession c env = some t) :
    ((env.resp1.status = 401 ∨ env.resp1.status = 403) →
      (apiCall jsonOk c path env).reloggedIn = true) ∧
    ((env.resp1.status = 401 ∨ env.resp1.status = 403) →
      env.loginRetry.isSome = true →
      (apiCall jsonOk c path env).fetchCount = 2) ∧
    (¬(env.resp1.status = 401 ∨ env.resp1.status = 403) →
      (apiCall jsonOk c path env).reloggedIn = false ∧
      (apiCall jsonOk c path env).fetchCount = 1) ∧
    (env.resp1.status = 400 →
      (apiCall jsonOk c path env).reloggedIn = false ∧
      (apiCall jsonOk c path env).fetchCount = 1 ∧
      (apiCall jsonOk c path env).outcome
        = CallResult.failure ("Błąd wywołania API: " ++ toString (400 : Nat))) ∧
    (∀ t2, (env.resp1.status = 401 ∨ env.resp1.status = 403) →
      env.loginRetry = some t2 → respOk env.resp2.status = false →
      (apiCall jsonOk c path env).fetchCount = 2 ∧
      (apiCall jsonOk c path env).reloggedIn = true ∧
      (apiCall jsonOk c path env).outcome
        = CallResult.failure
            ("Błąd wywołania API: " ++ toString env.resp2.status)) := by
  rw [apiCall_eq_with jsonOk c path env t hsess]
  refine ⟨?_, ?_, ?_, ?_, ?_⟩
  · intro h4
    unfold apiCallWith
    rw [if_pos h4]
    rcases hlr : env.loginRetry with _ | t2 <;> simp [hlr]
  · intro h4 hsome
    unfold apiCallWith
    rw [if_pos h4]
    rcases hlr : env.loginRetry with _ | t2
    · rw [hlr] at hsome
      simp at hsome
    · simp [hlr]
  · intro hn
    unfold apiCallWith
    rw [if_neg hn]
    exact ⟨rfl, rfl⟩
  · intro h400
    have hn : ¬(env.resp1.status = 401 ∨ env.resp1.status = 403) := by
      rw [h400]; omega
    unfold apiCallWith
    rw [if_neg hn]
    refine ⟨rfl, rfl, ?_⟩
    have hbad : respOk env.resp1.status = false := by
      rw [h400]; rfl
    unfold apiFinish
    rw [hbad]
    simp [h400]
  · intro t2 h4 hlr hbad
    unfold apiCallWith
    rw [if_pos h4, hlr]
    refine ⟨rfl, rfl, ?_⟩
    show apiFinish jsonOk env.resp2 = CallResult.failure ("Błąd wywołania API: " ++ toString env.resp2.status)
    unfold apiFinish
    rw [hbad]
    simp

/-- Witness for C5: with a stored session, a first response of 401, a
re-login yielding a fresh token and a second response of 403, the call
makes exactly two fetches, one re-login, and throws the API error for 403. -/
theorem api_relogin_policy_witness :
    (apiCall (fun _ => true)
        ⟨"http://10.6.44.2:8080", "admin", "123456", some "tok", "en"⟩
        "/api/work-sites/worksiteFiled"
        ⟨none, ⟨401, ""⟩, some "tok2", ⟨403, ""⟩⟩).fetchCount = 2 ∧
    (apiCall (fun _ => true)
        ⟨"http://10.6.44.2:8080", "admin", "123456", some "tok", "en"⟩
        "/api/work-sites/worksiteFiled"
        ⟨none, ⟨401, ""⟩, some "tok2", ⟨403, ""⟩⟩).reloggedIn = true ∧
    (apiCall (fun _ => true)
        ⟨"http://10.6.44.2:8080", "admin", "123456", some "tok", "en"⟩
        "/api/work-sites/worksiteFiled"
        ⟨none, ⟨401, ""⟩, some "tok2", ⟨403, ""⟩⟩).outcome
      = CallResult.failure ("Błąd wywołania API: " ++ toString (403 : Nat)) := by
  exact (api_relogin_policy (fun _ => true)
    ⟨"http://10.6.44.2:8080", "admin", "123456", some "tok", "en"⟩
    "/api/work-sites/worksiteFiled"
    ⟨none, ⟨401, ""⟩, some "tok2", ⟨403, ""⟩⟩ "tok" rfl).2.2.2.2 "tok2"
    (Or.inl rfl) rfl rfl

/-- C6 at its failing input: the live apiCall revision hands every
successful response to response.json(), so a 2xx response with an empty
body makes the call throw a JSON decode error instead of returning a null
value (an empty string is not valid JSON, which is the jsonOk hypothesis). -/
theorem api_empty_body_decode_error (jsonOk : String → Bool)
    (hjson : jsonOk "" = false) :
    respOk 200 = true ∧
    (apiCall jsonOk
        ⟨"http://10.6.44.2:8080", "admin", "123456", some "tok", "en"⟩
        "/api/work-sites/worksiteFiled"
        ⟨none, ⟨200, ""⟩, none, ⟨200, ""⟩⟩).outcome
      = CallResult.failure "JSON decode error" := by
  refine ⟨rfl, ?_⟩
  rw [apiCall_eq_with jsonOk
    ⟨"http://10.6.44.2:8080", "admin", "123456", some "tok", "en"⟩
    "/api/work-sites/worksiteFiled"
    ⟨none, ⟨200, ""⟩, none, ⟨200, ""⟩⟩ "tok" rfl]
  unfold apiCallWith
  rw [if_neg (by omega : ¬((200 : Nat) = 401 ∨ (200 : Nat) = 403))]
  simp [apiFinish, respOk, hjson]

/-- Witness for C6: instantiating the JSON.parse oracle with the constantly
failing parser evaluates the call at the failing input. -/
theorem api_empty_body_decode_error_witness :
    (apiCall (fun _ => false)
        ⟨"http://10.6.44.2:8080", "admin", "123456", some "tok", "en"⟩
        "/api/work-sites/worksiteFiled"
        ⟨none, ⟨200, ""⟩, none, ⟨200, ""⟩⟩).outcome
      = CallResult.failure "JSON decode error" :=
  (api_empty_body_decode_error (fun _ => false) rfl).2

/-- Counterexample for C7 as stated: with the configured language pl, the
live apiCall revision still sends a Language header of en, so the header
does not equal the configured language. -/
theorem api_language_header_counterexample :
    (apiCall (fun _ => true)
        ⟨"http://10.6.44.2:8080", "admin", "123456", some "tok", "pl"⟩
        "/api/work-sites/worksiteFiled"
        ⟨none, ⟨200, "[1]"⟩, none, ⟨200, "[1]"⟩⟩).headers1
      = some ⟨"application/json", "JSESSIONID=" ++ "tok", "en"⟩ ∧
    (⟨"http://10.6.44.2:8080", "admin", "123456", some "tok", "pl"⟩
        : ClientState).language = "pl" ∧
    ("en" : String) ≠ "pl" := by
  refine ⟨rfl, rfl, by decide⟩

/-- C7 as amended: every request of the live apiCall revision carries the
current session token in the Cookie header as JSESSIONID, a Content-Type of
application/json, and a Language header that is always the constant en
(equal to the configured language only when that language is en); the
retried request after 401 or 403 carries the token of the fresh login. -/
theorem api_headers (jsonOk : String → Bool) (c : ClientState)
    (path : String) (env : ApiEnv) (t : String)
    (hsess : ensureSession c env = some t) :
    (apiCall jsonOk c path env).headers1
      = some ⟨"application/json", "JSESSIONID=" ++ t, "en"⟩ ∧
    (∀ t2, (env.resp1.status = 401 ∨ env.resp1.status = 403) →
      env.loginRetry = some t2 →
      (apiCall jsonOk c path env).headers2
        = some ⟨"application/json", "JSESSIONID=" ++ t2, "en"⟩) := by
  rw [apiCall_eq_with jsonOk c path env t hsess]
  constructor
  · unfold apiCallWith
    by_cases h4 : env.resp1.status = 401 ∨ env.resp1.status = 403
    · rw [if_pos h4]
      rcases hlr : env.loginRetry with _ | t2 <;> simp [hlr, mkHeaders]
    · rw [if_neg h4]
      rfl
  · intro t2 h4 hlr
    unfold apiCallWith
    rw [if_pos h4, hlr]
    rfl

/-- Witness for C7 as amended: a call with stored token tok and configured
language pl sends Content-Type application/json, Cookie JSESSIONID=tok and
Language en on its first request. -/
theorem api_headers_witness :
    (apiCall (fun _ => true)
        ⟨"http://10.6.44.2:8080", "admin", "123456", some "tok", "pl"⟩
        "/api/work-sites/worksiteUnFiled"
        ⟨none, ⟨200, "[1]"⟩, none, ⟨200, "[1]"⟩⟩).headers1
      = some ⟨"application/json", "JSESSIONID=" ++ "tok", "en"⟩ :=
  (api_headers (fun _ => true)
    ⟨"http://10.6.44.2:8080", "admin", "123456", some "tok", "pl"⟩
    "/api/work-sites/worksiteUnFiled"
    ⟨none, ⟨200, "[1]"⟩, none, ⟨200, "[1]"⟩⟩ "tok" rfl).1

/-- encryptPassword of api-client.js: apply the external md5 hex digest
function to the password. -/
def encryptPassword (md5 : String → String) (password : String) : String :=
  md5 password

/-- The literal JSESSIONID= searched for by the login cookie regex. -/
def jsessionPat : List Char := "JSESSIONID=".data

/-- Match a literal pattern at the head of a character list, returning the
remainder on success. -/
def charsMatch : List Char → List Char → Option (List Char)
  | [], rest => some rest
  | _ :: _, [] => none
  | p :: ps, c :: cs => if p = c then charsMatch ps cs else none

/-- The regex scan of setCookieHeader.match over JSESSIONID followed by an
equals sign and one or more characters other than a semicolon: try each
start position left to right; at a position where the literal matches,
capture the maximal semicolon-free run, which must be non-empty. -/
def findJSessionAux : List Char → Option String
  | [] => none
  | c :: cs =>
    match charsMatch jsessionPat (c :: cs) with
    | some rest =>
      let run := rest.takeWhile (fun ch => ch ≠ ';')
      if run.isEmpty then findJSessionAux cs else some (String.mk run)
    | none => findJSessionAux cs

/-- The capture group of the JSESSIONID cookie regex on a header value. -/
def extractJSessionId (s : String) : Option String :=
  findJSessionAux s.data

/-- The external data of one login call: the response status, the value of
the set-cookie header (none when the header is absent), and whether the
response body parses as JSON (response.json() succeeding). -/
structure LoginEnv where
  status : Nat
  setCookie : Option String
  bodyJsonOk : Bool
deriving DecidableEq

/-- Result of a login call: returned normally or threw with a message. -/
inductive LoginOutcome where
  | success
  | failure (msg : String)
deriving DecidableEq

/-- Observable outcome of one login call: the username and password fields
of the posted request body, the sessionId stored on the client afterwards,
and whether the call returned or threw. -/
structure LoginReturn where
  requestUsername : String
  requestPassword : String
  newSession : Option String
  outcome : LoginOutcome
deriving DecidableEq

/-- login of api-client.js: POST the username with the md5 digest of the
password; throw on a non-ok status; extract the JSESSIONID token from the
set-cookie header and store it, throwing when none can be extracted; then
await response.json(), which throws when the body is not valid JSON, before
reporting success. -/
def login (md5 : String → String) (c : ClientState) (env : LoginEnv) :
    LoginReturn :=
  let reqU := c.username
  let reqP := encryptPassword md5 c.password
  if respOk env.status = false then
    ⟨reqU, reqP, c.sessionId,
      LoginOutcome.failure ("Logowanie nie powiodło się: " ++ toString env.status)⟩
  else
    match env.setCookie.bind extractJSessionId with
    | none =>
      ⟨reqU, reqP, none,
        LoginOutcome.failure "Nie udało się pobrać JSESSIONID z ciasteczka."⟩
    | some tok =>
      if env.bodyJsonOk then
        ⟨reqU, reqP, some tok, LoginOutcome.success⟩
      else
        ⟨reqU, reqP, some tok,
          LoginOutcome.failure "JSON decode error in login body"⟩

/-- Supporting fact for C8: on a 2xx response whose cookie carries no
extractable token, login clears the session and throws. -/
theorem login_no_token_fails (md5 : String → String) (c : ClientState)
    (env : LoginEnv) (hok : respOk env.status = true)
    (hcookie : env.setCookie.bind extractJSessionId = none) :
    (login md5 c env).newSession = none ∧
    (login md5 c env).outcome
      = LoginOutcome.failure "Nie udało się pobrać JSESSIONID z ciasteczka." := by
  unfold login
  rw [hok]
  simp only [Bool.true_eq_false, if_false]
  rw [hcookie]
  exact ⟨rfl, rfl⟩

/-- C8 at its failing input: login posts the username with the md5 digest of
the password and extracts and stores the token abc123 from the JSESSIONID
cookie of a 200 response, yet when the response body is not valid JSON (for
example empty) the call still throws a JSON decode error, because it awaits
response.json() after storing the token.  The body is therefore not ignored,
contradicting the comment in the source that says the cookie suffices. -/
theorem login_body_not_ignored :
    login (fun s => "md5(" ++ s ++ ")")
        ⟨"http://10.6.44.2:8080", "admin", "123456", none, "en"⟩
        ⟨200, some "JSESSIONID=abc123; Path=/; HttpOnly", false⟩
      = ⟨"admin", "md5(123456)", some "abc123",
          LoginOutcome.failure "JSON decode error in login body"⟩ := by
  decide

end ModbusSync
